import Mathlib

/-!
Shallow embedding of the matchminer-admin trial synchronization engine
(`src/trial.py`) and the resilient file relocator (`src/patient.py`).

Python strings, dicts and lists are modelled explicitly; the string
helpers below implement the exact semantics of the Python operations the
source uses (`<`/`>` comparison by code point, `split(sep)`, `int(...)`,
`f"{n:02d}"`), with structural recursion so that every definition
evaluates inside the kernel.
-/

namespace MatchminerAdmin

/-- Lexicographic comparison of character lists by code point.
Implements Python string `<` (and, with arguments swapped, `>`). -/
def listLtb : List Char → List Char → Bool
  | [], [] => false
  | [], _ :: _ => true
  | _ :: _, [] => false
  | a :: as, b :: bs =>
    if a.toNat < b.toNat then true
    else if b.toNat < a.toNat then false
    else listLtb as bs

/-- Python string comparison `s < t` (lexicographic by code point). -/
def pyStrLt (s t : String) : Bool := listLtb s.data t.data

/-- Split a character list at every occurrence of `sep`; always returns at
least one chunk, like Python `str.split(sep)`. -/
def splitChar (sep : Char) : List Char → List (List Char)
  | [] => [[]]
  | c :: cs =>
    let rest := splitChar sep cs
    if c = sep then [] :: rest
    else
      match rest with
      | [] => [[c]]
      | r :: rs => (c :: r) :: rs

/-- Python `s.split(sep)` for a one-character separator. -/
def pySplit (sep : Char) (s : String) : List String :=
  (splitChar sep s.data).map String.mk

/-- Python `s.split(sep)[0]`: the prefix of `s` before the first
occurrence of `sep` (the whole of `s` when `sep` does not occur). -/
def pySplitHead (sep : Char) (s : String) : String :=
  String.mk (s.data.takeWhile (fun c => c != sep))

/-- Value of a list of decimal digit characters (accumulator form).
Models Python `int(...)` on the non-negative decimal strings the
allocator stores (`"00"`, `"01"`, ...). -/
def digitsVal : List Char → Nat → Nat
  | [], acc => acc
  | c :: cs, acc => digitsVal cs (acc * 10 + (c.toNat - 48))

/-- Python `int(s)` on a non-negative decimal string. -/
def pyInt (s : String) : Nat := digitsVal s.data 0

/-- Decimal digit character for a value below 10. -/
def digitChar : Nat → Char
  | 0 => '0' | 1 => '1' | 2 => '2' | 3 => '3' | 4 => '4'
  | 5 => '5' | 6 => '6' | 7 => '7' | 8 => '8' | 9 => '9'
  | _ => '*'

/-- Fuel-bounded decimal digit expansion (the fuel `n + 1` always
suffices for the value `n`). -/
def natDigitsAux : Nat → Nat → List Char
  | 0, _ => []
  | f + 1, n => if n < 10 then [digitChar n] else natDigitsAux f (n / 10) ++ [digitChar (n % 10)]

/-- Decimal representation of a natural number. -/
def natRepr (n : Nat) : String := String.mk (natDigitsAux (n + 1) n)

/-- Python `f"{n:02d}"` for a non-negative value: zero-padded to two
digits; values of three or more digits are rendered in full. -/
def pad2 (n : Nat) : String :=
  if n < 10 then String.mk ['0', digitChar n] else natRepr n

/-- Python dict read with default: `d.get(k, default)` for a
`String → Option String` dictionary. -/
def wmGet (wm : String → Option String) (k : String) : String :=
  (wm k).getD "1900-01-01"

/-- Python dict assignment `d[k] = v` on a `String → Option String`
dictionary. -/
def dictSet (wm : String → Option String) (k v : String) : String → Option String :=
  fun x => if x = k then some v else wm x

/-! Data model. -/

/-- A trial document held by the remote matchminer registry, as returned
by the `GET /api/trial` lookups in `src/trial.py`. Field names follow the
JSON document (`_id`, `_etag`, `protocol_id`, `protocol_no`, `nct_id`,
`status`); `protocol_ids` is the array field that the
local-protocol-identifier filter of `get_trial_by_local_protocol_ids`
queries. -/
structure RemoteTrial where
  _id : String
  _etag : String
  protocol_id : Int
  protocol_no : String
  nct_id : String
  status : String
  protocol_ids : List String
deriving Repr, DecidableEq

/-- A row of `trial_status.csv` as read by `csv.DictReader` in
`process_trials` (trial.py:286-294). -/
structure TrialStatusRow where
  nct_id : String
  local_protocol_ids : String
  status : String
  entry_last_updated_date : String
deriving Repr, DecidableEq

/-- The trial-env state stored in `matchminer_trial_data_env_config.json`
(`load_environment_variables` / `save_environment_variables`,
trial.py:12-26 and 201-206). `protocol_no_counter` is stored as the
zero-padded string the JSON file holds; `current_date` is `none` when the
JSON value is `null`. -/
structure EnvVars where
  protocol_id_counter : Int
  protocol_no_counter : String
  current_date : Option String
  protocol_no : String
deriving Repr, DecidableEq

/-- The part of a trial JSON file that `pre_process_trial_data` touches:
`none` models the key being absent from the loaded dict. -/
structure TrialData where
  protocol_id : Option Int
  protocol_no : Option String
deriving Repr, DecidableEq

/-- Outcome of one `GET /api/trial` lookup round-trip, as seen by the
lookup helpers of trial.py: the request may raise a network exception,
`raise_for_status` may raise an HTTPError, `response.json()` may raise on
a malformed body, or the parsed body yields the `_items` list. -/
inductive LookupOutcome
  | netError
  | httpError
  | badBody
  | items (l : List RemoteTrial)
deriving Repr, DecidableEq

/-- A Python exception value (only the one that matters here). -/
inductive PyExn
  | attributeError
deriving Repr, DecidableEq

/-! Remote registry lookups (trial.py:542-613). -/

/-- Embeds `get_trial_by_nct_id` (trial.py:542-576): on any raised
exception the handlers at trial.py:572-575 log and the function falls
through to `return None`; otherwise `items[0]` is returned when `_items`
is non-empty and `None` when it is empty. -/
def get_trial_by_nct_id (lookupNct : String → LookupOutcome) (nct_id : String) :
    Option RemoteTrial :=
  match lookupNct nct_id with
  | LookupOutcome.items l => l.head?
  | _ => none

/-- A registry backend that honours the `where = {"nct_id": q}` filter of
`get_trial_by_nct_id` against a concrete document list. -/
def honestNctLookup (reg : List RemoteTrial) : String → LookupOutcome :=
  fun q => LookupOutcome.items (reg.filter (fun t => t.nct_id = q))

/-- Embeds the expression `local_protocol_ids.join(',')` at trial.py:596.
`local_protocol_ids` is a Python `list`, and `list` objects have no
`join` method, so evaluating the attribute access raises
`AttributeError` for every input. -/
def pyListJoin (_ids : List String) (_sep : String) : Except PyExn String :=
  Except.error PyExn.attributeError

/-- Embeds `get_trial_by_local_protocol_ids` (trial.py:578-613). The
`where` filter is built from `local_protocol_ids.join(',')`; the
AttributeError this raises is caught by the `except Exception` handler at
trial.py:611-612, after which the function returns `None`. Had the join
succeeded, the filter `{"protocol_ids": {"$in": [joined]}}` would have
been sent and the first returned item used. -/
def get_trial_by_local_protocol_ids (lookupLocal : String → LookupOutcome)
    (local_protocol_ids : List String) : Option RemoteTrial :=
  match pyListJoin local_protocol_ids "," with
  | Except.error _ => none
  | Except.ok joined =>
    match lookupLocal joined with
    | LookupOutcome.items l => l.head?
    | _ => none

/-! Protocol number allocator (trial.py:148-206). -/

/-- Python f-string interpolation of the `current_date` local variable in
`update_env_variables` (trial.py:194); `None` would render as `"None"`,
though by then the reset branch has always replaced a `None`. -/
def pyFormatOpt : Option String → String
  | some s => s
  | none => "None"

/-- Embeds `update_env_variables` (trial.py:169-199): increments
`protocol_no_counter` (zero-padded to 2 digits), resets it to `"00"` and
refreshes `current_date` when the stored date is null or differs from
today, sets `protocol_no` to the date prefix plus the counter, and
increments `protocol_id_counter` by one. `today_formatted_date` stands
for `datetime.now().strftime("%Y%m%d")`. -/
def update_env_variables (env : EnvVars) (today_formatted_date : String) : EnvVars :=
  let protocol_no_counter := pad2 (pyInt env.protocol_no_counter + 1)
  let needs_reset := env.current_date = none ∨ env.current_date ≠ some today_formatted_date
  let protocol_no_counter' := if needs_reset then "00" else protocol_no_counter
  let current_date' := if needs_reset then some today_formatted_date else env.current_date
  { protocol_id_counter := env.protocol_id_counter + 1
    protocol_no_counter := protocol_no_counter'
    current_date := current_date'
    protocol_no := pyFormatOpt current_date' ++ protocol_no_counter' }

/-- Embeds `pre_process_trial_data` (trial.py:148-167): each key, when
present in the loaded trial dict, is overwritten from the env state
(`data['protocol_id'] = env.get('protocol_id_counter', ...)` and
`data['protocol_no'] = env.get('protocol_no', ...)`; both env keys are
always present after `update_env_variables`). -/
def pre_process_trial_data (data : TrialData) (env_variables : EnvVars) : TrialData :=
  { protocol_id := data.protocol_id.map (fun _ => env_variables.protocol_id_counter)
    protocol_no := data.protocol_no.map (fun _ => env_variables.protocol_no) }

/-! Reconciliation planner (trial.py:254-327). -/

/-- Trial-key derivation used for the watermark filter
(trial.py:289-292): the first local protocol identifier when the feed
`nct_id` equals `"NA"`, otherwise the feed `nct_id` itself. -/
def trialKeyOfRow (row : TrialStatusRow) : String :=
  if row.nct_id = "NA" then pySplitHead '|' row.local_protocol_ids else row.nct_id

/-- Embeds `_get_trial_file_name` (trial.py:461-466). -/
def getTrialFileName (row : TrialStatusRow) : String :=
  if row.nct_id ≠ "NA" then row.nct_id ++ ".json"
  else pySplitHead '|' row.local_protocol_ids ++ ".json"

/-- The candidate filter of `process_trials` (trial.py:286-294): a feed
row is kept iff its `entry_last_updated_date` is strictly greater (Python
string comparison) than the watermark entry for its trial key, with
missing entries defaulting to `"1900-01-01"`. -/
def trials_to_process (feed : List TrialStatusRow) (wm : String → Option String) :
    List TrialStatusRow :=
  feed.filter (fun row => pyStrLt (wmGet wm (trialKeyOfRow row)) row.entry_last_updated_date)

/-- What one candidate row contributes to the sync plan
(trial.py:300-323). -/
inductive PlanEntry
  | toClose (matchminer_id nct_id : String) (trial : RemoteTrial)
  | toUpdate (file_name matchminer_id : String) (protocol_id : Int) (protocol_no etag : String)
  | toInsert (file_name : String)
  | skipAlreadyClosed (nct_id : String)
  | drop
deriving Repr, DecidableEq

/-- Embeds the per-candidate branching of `process_trials`
(trial.py:300-323): a candidate with a truthy, non-`"NA"` `nct_id` is
resolved by NCT lookup (found and feed-closed: close unless already
closed remotely; found otherwise: update carrying the remote `_id`,
`protocol_id`, `protocol_no`, `_etag`; not found: insert); a candidate
without one is resolved by local-protocol-identifier lookup with only the
update/insert branches; a candidate with no usable identifier of either
kind contributes nothing. -/
def classifyTrial (lookupNct lookupLocal : String → LookupOutcome)
    (row : TrialStatusRow) : PlanEntry :=
  let file_name := getTrialFileName row
  if row.nct_id ≠ "" ∧ row.nct_id ≠ "NA" then
    match get_trial_by_nct_id lookupNct row.nct_id with
    | some trial_in_mm =>
      if row.status = "closed" then
        if trial_in_mm.status ≠ "closed" then
          PlanEntry.toClose trial_in_mm._id trial_in_mm.nct_id trial_in_mm
        else
          PlanEntry.skipAlreadyClosed row.nct_id
      else
        PlanEntry.toUpdate file_name trial_in_mm._id trial_in_mm.protocol_id
          trial_in_mm.protocol_no trial_in_mm._etag
    | none => PlanEntry.toInsert file_name
  else
    if row.local_protocol_ids ≠ "" ∧ row.local_protocol_ids ≠ "NA" then
      match get_trial_by_local_protocol_ids lookupLocal (pySplit '|' row.local_protocol_ids) with
      | some trial_in_mm =>
        PlanEntry.toUpdate file_name trial_in_mm._id trial_in_mm.protocol_id
          trial_in_mm.protocol_no trial_in_mm._etag
      | none => PlanEntry.toInsert file_name
    else
      PlanEntry.drop

/-- The three plan sequences accumulated by `process_trials`
(trial.py:296-323): `to_update` holds (file_name, _id, protocol_id,
protocol_no, _etag), `to_insert` holds file names, `to_close` holds
(_id, nct_id, document). -/
structure SyncPlan where
  to_update : List (String × String × Int × String × String)
  to_insert : List String
  to_close : List (String × String × RemoteTrial)
deriving Repr, DecidableEq

/-- The empty plan. -/
def emptyPlan : SyncPlan := { to_update := [], to_insert := [], to_close := [] }

/-- Append one candidate's contribution to the plan, preserving feed
order within each partition. -/
def planAdd (p : SyncPlan) (e : PlanEntry) : SyncPlan :=
  match e with
  | PlanEntry.toClose a b t => { p with to_close := p.to_close ++ [(a, b, t)] }
  | PlanEntry.toUpdate fn i pid pno etag =>
    { p with to_update := p.to_update ++ [(fn, i, pid, pno, etag)] }
  | PlanEntry.toInsert fn => { p with to_insert := p.to_insert ++ [fn] }
  | PlanEntry.skipAlreadyClosed _ => p
  | PlanEntry.drop => p

/-- The plan built by the loop at trial.py:300-323 over the candidate
list. -/
def planOf (lookupNct lookupLocal : String → LookupOutcome)
    (rows : List TrialStatusRow) : SyncPlan :=
  rows.foldl (fun p row => planAdd p (classifyTrial lookupNct lookupLocal row)) emptyPlan

/-! Sync executor (trial.py:350-453) and run completion
(trial.py:329-347). -/

/-- The environment a run executes against: filesystem preconditions,
today's date in the two formats the code uses
(`strftime("%Y%m%d")` for the allocator, `strftime("%Y-%m-%d")` for the
watermark), trial-file loading (`none` models a missing file as well as a
JSON parse failure, both of which make the loop log and continue), and
the two registry lookup backends. -/
structure World where
  trialDirExists : Bool
  csvExists : Bool
  processedDirExists : Bool
  todayYmd : String
  todayIso : String
  fileOk : String → Option TrialData
  lookupNct : String → LookupOutcome
  lookupLocal : String → LookupOutcome

/-- Observable state of one `process_trials` run: the durable allocator
state (`matchminer_trial_data_env_config.json`), the in-memory watermark
dict (`last_run_date_per_trial`), the aggregated success flag, and ghost
observation fields — `envSaves` counts `save_environment_variables`
calls, `allocations` logs each (protocol_id, protocol_no) pair an insert
attempt stamps, `movedFiles` logs every file relocation performed (the
trial flow contains no file-move call, see `claim_C4`),
`matchengineRuns` counts `system.run_matchengine` invocations,
`watermarkSaved` records whether `save_last_run_environment` ran,
`createdProcessedDir` records the `os.makedirs` at trial.py:273-275, and
`aborted` records the early returns at trial.py:264-271. -/
structure RunState where
  diskEnv : EnvVars
  watermark : String → Option String
  anySuccess : Bool
  envSaves : Nat
  allocations : List (Int × String)
  movedFiles : List (String × String)
  matchengineRuns : Nat
  watermarkSaved : Bool
  createdProcessedDir : Bool
  aborted : Bool

/-- Initial run state given the loaded watermark dict and the on-disk
env config. -/
def initRunState (wm0 : String → Option String) (diskEnv0 : EnvVars) : RunState :=
  { diskEnv := diskEnv0
    watermark := wm0
    anySuccess := false
    envSaves := 0
    allocations := []
    movedFiles := []
    matchengineRuns := 0
    watermarkSaved := false
    createdProcessedDir := false
    aborted := false }

/-- One iteration of the `_process_trials_to_insert` loop
(trial.py:361-385): skip when the file is missing or unparsable;
otherwise reload the allocator state from disk, advance it, stamp the
payload, post, and only on a 2xx response persist the advanced state,
record `file_name.split('.')[0] -> today` in the watermark and set the
success flag. `posts` is the stream of outcomes of the `post_trial`
calls (`true` iff the response was truthy with a 2xx status); each actual
call consumes one entry. -/
def insertStep (cfg : World) (file_name : String) (s : RunState) (posts : List Bool) :
    RunState × List Bool :=
  match cfg.fileOk file_name with
  | none => (s, posts)
  | some data =>
    let env_variables := s.diskEnv
    let updated_env_variables := update_env_variables env_variables cfg.todayYmd
    let _updated_data := pre_process_trial_data data updated_env_variables
    let ok := posts.headD false
    let s1 := { s with allocations := s.allocations ++
        [(updated_env_variables.protocol_id_counter, updated_env_variables.protocol_no)] }
    if ok then
      ({ s1 with
          diskEnv := updated_env_variables
          envSaves := s1.envSaves + 1
          watermark := dictSet s1.watermark (pySplitHead '.' file_name) cfg.todayIso
          anySuccess := true }, posts.tail)
    else
      (s1, posts.tail)

/-- Embeds `_process_trials_to_insert` (trial.py:350-387). -/
def _process_trials_to_insert (cfg : World) (files : List String) (posts : List Bool)
    (s : RunState) : RunState × List Bool :=
  match files with
  | [] => (s, posts)
  | f :: rest =>
    _process_trials_to_insert cfg rest (insertStep cfg f s posts).2 (insertStep cfg f s posts).1

/-- The number of insert attempts of a run that reach `post_trial` and
get a successful response, mirroring the control flow of
`_process_trials_to_insert` (file missing or unparsable: no call; call
made: consume one oracle entry). -/
def insertSuccessCount (cfg : World) (files : List String) (posts : List Bool) : Nat :=
  match files with
  | [] => 0
  | f :: rest =>
    match cfg.fileOk f with
    | none => insertSuccessCount cfg rest posts
    | some _ =>
      (if posts.headD false then 1 else 0) + insertSuccessCount cfg rest posts.tail

/-- One iteration of the `_process_trials_to_update` loop
(trial.py:400-427): skip when the file is missing or unparsable;
otherwise stamp the payload with the carried-forward `protocol_id` and
`protocol_no`, put, and on a 2xx response record
`file_name.split('.')[0] -> today` in the watermark and set the success
flag. -/
def updateStep (cfg : World) (entry : String × String × Int × String × String)
    (s : RunState) (puts : List Bool) : RunState × List Bool :=
  match entry with
  | (file_name, _matchminer_id, protocol_id, protocol_no, _etag) =>
    match cfg.fileOk file_name with
    | none => (s, puts)
    | some data =>
      let _data := { data with protocol_id := some protocol_id, protocol_no := some protocol_no }
      let ok := puts.headD false
      if ok then
        ({ s with
            watermark := dictSet s.watermark (pySplitHead '.' file_name) cfg.todayIso
            anySuccess := true }, puts.tail)
      else
        (s, puts.tail)

/-- Embeds `_process_trials_to_update` (trial.py:389-429). -/
def _process_trials_to_update (cfg : World) (entries : List (String × String × Int × String × String))
    (puts : List Bool) (s : RunState) : RunState × List Bool :=
  match entries with
  | [] => (s, puts)
  | e :: rest =>
    _process_trials_to_update cfg rest (updateStep cfg e s puts).2 (updateStep cfg e s puts).1

/-- One iteration of the `_process_trials_to_close` loop
(trial.py:442-451): `close_trial` is called unconditionally (it catches
its own exceptions and returns a boolean; its `force_refresh_matchengine`
parameter defaults to `False`, so it never triggers the matchengine); on
success the watermark records the remote document's `nct_id -> today`. -/
def closeStep (cfg : World) (entry : String × String × RemoteTrial) (s : RunState)
    (closes : List Bool) : RunState × List Bool :=
  match entry with
  | (_matchminer_id, _nct, trial_data_in_mm) =>
    let ok := closes.headD false
    if ok then
      ({ s with
          watermark := dictSet s.watermark trial_data_in_mm.nct_id cfg.todayIso
          anySuccess := true }, closes.tail)
    else
      (s, closes.tail)

/-- Embeds `_process_trials_to_close` (trial.py:431-453). -/
def _process_trials_to_close (cfg : World) (entries : List (String × String × RemoteTrial))
    (closes : List Bool) (s : RunState) : RunState × List Bool :=
  match entries with
  | [] => (s, closes)
  | e :: rest =>
    _process_trials_to_close cfg rest (closeStep cfg e s closes).2 (closeStep cfg e s closes).1

/-- The archive directory for processed trial files
(config.py: `TRIAL_JSON_PROCESSED_DIR`). -/
def TRIAL_JSON_PROCESSED_DIR : String := "trial_data_processed"

/-- The run-completion tail of `process_trials` (trial.py:340-345):
invoke `system.run_matchengine` exactly once iff `any_success`, then
unconditionally persist the watermark dict
(`save_last_run_environment`). -/
def runCompletion (s3 : RunState) : RunState :=
  { (if s3.anySuccess then { s3 with matchengineRuns := s3.matchengineRuns + 1 } else s3) with
    watermarkSaved := true }

/-- The main path of `process_trials` (trial.py:273-347), after the
precondition guards: create the processed-files directory when absent
(trial.py:273-275); filter the feed by the watermark (trial.py:286-294);
build the three plans (trial.py:300-323); run the insert, update and
close executors in order, threading the run state (trial.py:329-338);
then the run-completion tail. -/
def process_trials_main (cfg : World) (feed : List TrialStatusRow)
    (wm0 : String → Option String) (diskEnv0 : EnvVars)
    (posts puts closes : List Bool) : RunState :=
  runCompletion
    (_process_trials_to_close cfg
      (planOf cfg.lookupNct cfg.lookupLocal (trials_to_process feed wm0)).to_close closes
      (_process_trials_to_update cfg
        (planOf cfg.lookupNct cfg.lookupLocal (trials_to_process feed wm0)).to_update puts
        (_process_trials_to_insert cfg
          (planOf cfg.lookupNct cfg.lookupLocal (trials_to_process feed wm0)).to_insert posts
          { initRunState wm0 diskEnv0 with
            createdProcessedDir := !cfg.processedDirExists }).1).1).1

/-- Embeds `process_trials` (trial.py:254-347): abort early when the
trial directory or the status csv is missing (trial.py:264-271),
otherwise run the main path. `wm0` is the dict loaded from
`last_run_config.json` (empty on a missing or unparsable file);
`diskEnv0` is the on-disk allocator state; `posts`, `puts` and `closes`
are the outcome streams of the three kinds of remote calls. -/
def process_trials (cfg : World) (feed : List TrialStatusRow)
    (wm0 : String → Option String) (diskEnv0 : EnvVars)
    (posts puts closes : List Bool) : RunState :=
  if !cfg.trialDirExists then
    { initRunState wm0 diskEnv0 with aborted := true }
  else if !cfg.csvExists then
    { initRunState wm0 diskEnv0 with aborted := true }
  else
    process_trials_main cfg feed wm0 diskEnv0 posts puts closes

/-! Resilient file relocator (patient.py:128-165). -/

/-- Outcome of one filesystem call (`os.rename`, `shutil.copy2`,
`os.remove`): success, a raised PermissionError, or any other raised
exception. -/
inductive FsResult
  | ok
  | permError
  | otherError
deriving Repr, DecidableEq

/-- Behaviour of the filesystem during one `_move_file_with_retry` call:
the result of the i-th `os.rename` attempt (0-based), of the fallback
`shutil.copy2`, and of the fallback `os.remove`. -/
structure MoveWorld where
  renames : Nat → FsResult
  copy : FsResult
  remove : FsResult

/-- Result of `_move_file_with_retry`: the file was moved by a
successful rename on the given 0-based attempt, or by the
copy-then-delete fallback; or the rename's PermissionError was re-raised
after the fallback failed; or a non-permission rename exception was
re-raised immediately; `fellThrough` marks the (unreachable for a
positive retry count) case of the loop finishing without returning. -/
inductive MoveOutcome
  | renamed (attempt : Nat)
  | copiedAndDeleted
  | raisedPermError
  | raisedOther
  | fellThrough
deriving Repr, DecidableEq

/-- The retry loop of `_move_file_with_retry` (patient.py:141-165),
tracking in the second component the number of `time.sleep(delay)` calls
performed. On PermissionError before the last attempt: sleep and retry;
on the last attempt: try `shutil.copy2` then `os.remove`, and on any
failure of either re-raise the rename's PermissionError; on any other
rename exception: re-raise at once. -/
def moveGo (w : MoveWorld) (max_retries attempt remaining sleeps : Nat) : MoveOutcome × Nat :=
  match remaining with
  | 0 => (MoveOutcome.fellThrough, sleeps)
  | r + 1 =>
    match w.renames attempt with
    | FsResult.ok => (MoveOutcome.renamed attempt, sleeps)
    | FsResult.permError =>
      if attempt < max_retries - 1 then
        moveGo w max_retries (attempt + 1) r (sleeps + 1)
      else
        match w.copy with
        | FsResult.ok =>
          match w.remove with
          | FsResult.ok => (MoveOutcome.copiedAndDeleted, sleeps)
          | _ => (MoveOutcome.raisedPermError, sleeps)
        | _ => (MoveOutcome.raisedPermError, sleeps)
    | FsResult.otherError => (MoveOutcome.raisedOther, sleeps)

/-- Embeds `_move_file_with_retry` (patient.py:128-165) at its default
`max_retries = 3`. -/
def _move_file_with_retry (w : MoveWorld) : MoveOutcome × Nat :=
  moveGo w 3 0 3 0

/-- Whether the file ended up at the destination path. -/
def fileAtDest : MoveOutcome → Bool
  | MoveOutcome.renamed _ => true
  | MoveOutcome.copiedAndDeleted => true
  | _ => false

/-- Whether an exception escaped to the caller. -/
def errorSurfaced : MoveOutcome → Bool
  | MoveOutcome.raisedPermError => true
  | MoveOutcome.raisedOther => true
  | _ => false

/-! Concrete fixtures for evaluating the embedding on specific runs. -/

/-- An empty watermark dict (fresh `last_run_config.json`). -/
def wmEmpty : String → Option String := fun _ => none

/-- An allocator state with counter 5, a fresh daily counter and no
stored date. -/
def env5 : EnvVars := ⟨5, "00", none, ""⟩

/-- A registry backend whose every lookup succeeds with an empty
`_items` list. -/
def emptyItems : String → LookupOutcome := fun _ => LookupOutcome.items []

/-- A registry backend whose every lookup fails with an HTTP error
status. -/
def failNct : String → LookupOutcome := fun _ => LookupOutcome.httpError

/-- A world where both preconditions hold, the processed directory does
not yet exist, today is 2025-01-15, every trial file loads as a minimal
JSON document, and the registry finds nothing. -/
def cfg0 : World :=
  ⟨true, true, false, "20250115", "2025-01-15", fun _ => some ⟨none, none⟩, emptyItems, emptyItems⟩

/-- A feed row with a real NCT identifier. -/
def rowNct : TrialStatusRow := ⟨"NCT001", "NA", "active", "2024-03-01"⟩

/-- A feed row keyed by a local protocol identifier that contains a
dot. -/
def rowLocalDot : TrialStatusRow := ⟨"NA", "AB.C|X", "active", "2024-03-01"⟩

/-- A feed row keyed by the local protocol identifier `P1`. -/
def rowC1 : TrialStatusRow := ⟨"NA", "P1", "active", "2024-01-01"⟩

/-- A remote trial with NCT identifier `NCT9`, not closed. -/
def tOpen : RemoteTrial := ⟨"id7", "etag7", 7, "2024010100", "NCT9", "open", []⟩

/-- A remote trial with NCT identifier `NCT8`, already closed. -/
def tClosed : RemoteTrial := ⟨"id8", "etag8", 8, "2024010101", "NCT8", "closed", []⟩

/-- A remote trial whose `protocol_ids` contain `P1`. -/
def tLocal : RemoteTrial := ⟨"id9", "etag9", 9, "2024010102", "NA", "open", ["P1"]⟩

/-- A feed row asking to close `NCT9`. -/
def rowClose9 : TrialStatusRow := ⟨"NCT9", "NA", "closed", "2024-02-01"⟩

/-- A feed row asking to close `NCT8` (already closed remotely). -/
def rowClose8 : TrialStatusRow := ⟨"NCT8", "NA", "closed", "2024-02-01"⟩

/-- A feed row updating `NCT9`. -/
def rowActive9 : TrialStatusRow := ⟨"NCT9", "NA", "active", "2024-02-01"⟩

/-- A filesystem that raises PermissionError on the first two renames
and succeeds on the third. -/
def mwThird : MoveWorld :=
  ⟨fun i => if i < 2 then FsResult.permError else FsResult.ok, FsResult.ok, FsResult.ok⟩

/-- A filesystem where every rename raises PermissionError and the
copy-then-delete fallback succeeds. -/
def mwCopy : MoveWorld := ⟨fun _ => FsResult.permError, FsResult.ok, FsResult.ok⟩

/-- A filesystem where every rename raises PermissionError and the
fallback copy fails too. -/
def mwCopyFail : MoveWorld := ⟨fun _ => FsResult.permError, FsResult.otherError, FsResult.ok⟩

/-! Helper lemmas. -/

/-- The allocator transition always increments `protocol_id_counter` by
exactly one. -/
lemma update_env_variables_pid (env : EnvVars) (today : String) :
    (update_env_variables env today).protocol_id_counter = env.protocol_id_counter + 1 := rfl

/-- Python string comparison is irreflexive. -/
lemma listLtb_irrefl (l : List Char) : listLtb l l = false := by
  induction l with
  | nil => rfl
  | cons a as ih => simp [listLtb, ih]

/-- Python string comparison is irreflexive (string form). -/
lemma pyStrLt_irrefl (s : String) : pyStrLt s s = false := listLtb_irrefl s.data

/-- `takeWhile` consumes a whole prefix on which the predicate holds and
stops at the first failing character. -/
lemma takeWhile_append_stop (p : Char → Bool) (l r : List Char) (c0 : Char)
    (h : ∀ c ∈ l, p c = true) (hc : p c0 = false) :
    (l ++ c0 :: r).takeWhile p = l := by
  induction l with
  | nil => simp [List.takeWhile, hc]
  | cons a as ih =>
    have ha : p a = true := h a (by simp)
    simp [List.takeWhile, ha, ih (fun c hcmem => h c (by simp [hcmem]))]

/-- For a key without a dot, `split('.')[0]` of `key + ".json"` is the
key itself. -/
lemma pySplitHead_dot_json (key : String) (h : key.data.all (fun c => c != '.') = true) :
    pySplitHead '.' (key ++ ".json") = key := by
  have hdata : (key ++ ".json").data = key.data ++ '.' :: ['j', 's', 'o', 'n'] := by
    cases key
    rfl
  have hall : ∀ c ∈ key.data, (c != '.') = true := by
    intro c hc
    exact List.all_eq_true.mp h c hc
  have : (key ++ ".json").data.takeWhile (fun c => c != '.') = key.data := by
    rw [hdata]
    exact takeWhile_append_stop _ _ _ _ hall (by decide)
  unfold pySplitHead
  rw [this]

/-- Reading back the key just written into a dict. -/
lemma dictSet_same (wm : String → Option String) (k v : String) :
    dictSet wm k v k = some v := by
  simp [dictSet]

/-- One insert iteration never touches the run-completion observation
fields. -/
lemma insertStep_preserves (cfg : World) (f : String) (s : RunState) (posts : List Bool) :
    ((insertStep cfg f s posts).1).matchengineRuns = s.matchengineRuns
    ∧ ((insertStep cfg f s posts).1).watermarkSaved = s.watermarkSaved
    ∧ ((insertStep cfg f s posts).1).movedFiles = s.movedFiles := by
  cases hfo : cfg.fileOk f with
  | none => simp [insertStep, hfo]
  | some d =>
    simp only [insertStep, hfo]
    split <;> simp

/-- The insert executor never touches the run-completion observation
fields. -/
lemma insert_fold_preserves (cfg : World) (files : List String) (posts : List Bool)
    (s : RunState) :
    ((_process_trials_to_insert cfg files posts s).1).matchengineRuns = s.matchengineRuns
    ∧ ((_process_trials_to_insert cfg files posts s).1).watermarkSaved = s.watermarkSaved
    ∧ ((_process_trials_to_insert cfg files posts s).1).movedFiles = s.movedFiles := by
  induction files generalizing posts s with
  | nil => simp [_process_trials_to_insert]
  | cons f rest ih =>
    simp only [_process_trials_to_insert]
    have hs := insertStep_preserves cfg f s posts
    have h := ih (insertStep cfg f s posts).2 (insertStep cfg f s posts).1
    exact ⟨h.1.trans hs.1, h.2.1.trans hs.2.1, h.2.2.trans hs.2.2⟩

/-- One update iteration never touches the run-completion observation
fields. -/
lemma updateStep_preserves (cfg : World) (e : String × String × Int × String × String)
    (s : RunState) (puts : List Bool) :
    ((updateStep cfg e s puts).1).matchengineRuns = s.matchengineRuns
    ∧ ((updateStep cfg e s puts).1).watermarkSaved = s.watermarkSaved
    ∧ ((updateStep cfg e s puts).1).movedFiles = s.movedFiles := by
  obtain ⟨fn, i, pid, pno, etag⟩ := e
  cases hfo : cfg.fileOk fn with
  | none => simp [updateStep, hfo]
  | some d =>
    simp only [updateStep, hfo]
    split <;> simp

/-- The update executor never touches the run-completion observation
fields. -/
lemma update_fold_preserves (cfg : World)
    (entries : List (String × String × Int × String × String)) (puts : List Bool)
    (s : RunState) :
    ((_process_trials_to_update cfg entries puts s).1).matchengineRuns = s.matchengineRuns
    ∧ ((_process_trials_to_update cfg entries puts s).1).watermarkSaved = s.watermarkSaved
    ∧ ((_process_trials_to_update cfg entries puts s).1).movedFiles = s.movedFiles := by
  induction entries generalizing puts s with
  | nil => simp [_process_trials_to_update]
  | cons e rest ih =>
    simp only [_process_trials_to_update]
    have hs := updateStep_preserves cfg e s puts
    have h := ih (updateStep cfg e s puts).2 (updateStep cfg e s puts).1
    exact ⟨h.1.trans hs.1, h.2.1.trans hs.2.1, h.2.2.trans hs.2.2⟩

/-- One close iteration never touches the run-completion observation
fields. -/
lemma closeStep_preserves (cfg : World) (e : String × String × RemoteTrial)
    (s : RunState) (closes : List Bool) :
    ((closeStep cfg e s closes).1).matchengineRuns = s.matchengineRuns
    ∧ ((closeStep cfg e s closes).1).watermarkSaved = s.watermarkSaved
    ∧ ((closeStep cfg e s closes).1).movedFiles = s.movedFiles := by
  obtain ⟨i, n, t⟩ := e
  simp only [closeStep]
  split <;> simp

/-- The close executor never touches the run-completion observation
fields. -/
lemma close_fold_preserves (cfg : World) (entries : List (String × String × RemoteTrial))
    (closes : List Bool) (s : RunState) :
    ((_process_trials_to_close cfg entries closes s).1).matchengineRuns = s.matchengineRuns
    ∧ ((_process_trials_to_close cfg entries closes s).1).watermarkSaved = s.watermarkSaved
    ∧ ((_process_trials_to_close cfg entries closes s).1).movedFiles = s.movedFiles := by
  induction entries generalizing closes s with
  | nil => simp [_process_trials_to_close]
  | cons e rest ih =>
    simp only [_process_trials_to_close]
    have hs := closeStep_preserves cfg e s closes
    have h := ih (closeStep cfg e s closes).2 (closeStep cfg e s closes).1
    exact ⟨h.1.trans hs.1, h.2.1.trans hs.2.1, h.2.2.trans hs.2.2⟩

/-- Claim C7: the allocator transition `update_env_variables`
unconditionally increments `protocol_id_counter` by 1; it resets
`protocol_no_counter` to `"00"` and adopts today's date when the stored
date is unset or stale, and otherwise increments the 2-digit zero-padded
counter by 1; the resulting `protocol_no` is the YYYYMMDD date prefix
concatenated with the counter, so same-day allocations produce suffixes
00, 01, 02, ... and a date change resets the suffix to 00 under the new
prefix (illustrated by the concrete three-allocation chain in the final
conjunct). -/
theorem claim_C7 (env : EnvVars) (today : String) :
    (update_env_variables env today).protocol_id_counter = env.protocol_id_counter + 1
    ∧ (update_env_variables env today).current_date = some today
    ∧ (update_env_variables env today).protocol_no_counter =
        (if env.current_date = some today then pad2 (pyInt env.protocol_no_counter + 1) else "00")
    ∧ (update_env_variables env today).protocol_no =
        today ++ (update_env_variables env today).protocol_no_counter
    ∧ (update_env_variables env5 "20240301").protocol_no = "2024030100"
    ∧ (update_env_variables (update_env_variables env5 "20240301") "20240301").protocol_no
        = "2024030101"
    ∧ (update_env_variables (update_env_variables (update_env_variables env5 "20240301")
        "20240301") "20240302").protocol_no = "2024030200" := by
  refine ⟨rfl, ?_, ?_, ?_, by decide, by decide, by decide⟩
  · by_cases h : env.current_date = some today
    · have hreset : ¬ (env.current_date = none ∨ env.current_date ≠ some today) := by
        simp [h]
      simp [update_env_variables, hreset]
      exact h
    · have hreset : env.current_date = none ∨ env.current_date ≠ some today := Or.inr h
      simp [update_env_variables, hreset]
  · by_cases h : env.current_date = some today
    · have hreset : ¬ (env.current_date = none ∨ env.current_date ≠ some today) := by
        simp [h]
      simp [update_env_variables, hreset, h]
    · have hreset : env.current_date = none ∨ env.current_date ≠ some today := Or.inr h
      simp [update_env_variables, hreset, h]
  · by_cases h : env.current_date = some today
    · have hreset : ¬ (env.current_date = none ∨ env.current_date ≠ some today) := by
        simp [h]
      simp [update_env_variables, hreset, h, pyFormatOpt]
    · have hreset : env.current_date = none ∨ env.current_date ≠ some today := Or.inr h
      simp [update_env_variables, hreset, h, pyFormatOpt]

/-- Claim C2 (amended): allocator state is written back to durable
storage only after a successful remote insert (`envSaves` counts exactly
the successful posts); but because `_process_trials_to_insert` reloads
the state from disk on every iteration and persists it only on success,
a failed insert does not burn its allocation — the persisted
`protocol_id_counter` grows by exactly 1 per successful insert, not per
allocation. -/
theorem claim_C2 (cfg : World) (files : List String) (posts : List Bool) (s : RunState) :
    ((_process_trials_to_insert cfg files posts s).1).diskEnv.protocol_id_counter
      = s.diskEnv.protocol_id_counter + (insertSuccessCount cfg files posts : Int)
    ∧ ((_process_trials_to_insert cfg files posts s).1).envSaves
      = s.envSaves + insertSuccessCount cfg files posts := by
  induction files generalizing posts s with
  | nil => simp [_process_trials_to_insert, insertSuccessCount]
  | cons f rest ih =>
    simp only [_process_trials_to_insert]
    cases hfo : cfg.fileOk f with
    | none =>
      have hstep : insertStep cfg f s posts = (s, posts) := by
        simp [insertStep, hfo]
      rw [hstep]
      have h := ih posts s
      simp only [insertSuccessCount, hfo]
      exact h
    | some d =>
      simp only [insertSuccessCount, hfo]
      have h3 : (insertStep cfg f s posts).2 = posts.tail := by
        simp only [insertStep, hfo]
        split <;> rfl
      have h := ih (insertStep cfg f s posts).2 (insertStep cfg f s posts).1
      have hone : (if true = true then (1 : Nat) else 0) = 1 := rfl
      have hzero : (if false = true then (1 : Nat) else 0) = 0 := rfl
      by_cases hok : posts.headD false = true
      · have h1 : ((insertStep cfg f s posts).1).diskEnv.protocol_id_counter
            = s.diskEnv.protocol_id_counter + 1 := by
          simp only [insertStep, hfo]
          rw [if_pos hok]
          exact update_env_variables_pid s.diskEnv cfg.todayYmd
        have h2 : ((insertStep cfg f s posts).1).envSaves = s.envSaves + 1 := by
          simp only [insertStep, hfo]
          rw [if_pos hok]
        constructor
        · rw [h.1, h1, h3, hok, hone]
          push_cast
          ring
        · rw [h.2, h2, h3, hok, hone]
          omega
      · simp only [Bool.not_eq_true] at hok
        have h1 : ((insertStep cfg f s posts).1).diskEnv.protocol_id_counter
            = s.diskEnv.protocol_id_counter := by
          simp only [insertStep, hfo]
          rw [if_neg (by simp only [Bool.not_eq_true]; exact hok)]
        have h2 : ((insertStep cfg f s posts).1).envSaves = s.envSaves := by
          simp only [insertStep, hfo]
          rw [if_neg (by simp only [Bool.not_eq_true]; exact hok)]
        constructor
        · rw [h.1, h1, h3, hok, hzero]
          simp
        · rw [h.2, h2, h3, hok, hzero]
          simp

/-- Counterexample to claim C2 as stated: starting from a persisted
`protocol_id_counter` of 5, a run whose first insert fails and whose
second succeeds stamps the SAME pair (6, "2025011500") on both payloads
— the failed insert's allocation is reissued to the next insert — and
the persisted counter ends at 6 after two allocations (one save), not at
7. -/
theorem claim_C2_counterexample :
    ((_process_trials_to_insert cfg0 ["A.json", "B.json"] [false, true]
        (initRunState wmEmpty env5)).1).allocations
      = [(6, "2025011500"), (6, "2025011500")]
    ∧ ((_process_trials_to_insert cfg0 ["A.json", "B.json"] [false, true]
        (initRunState wmEmpty env5)).1).diskEnv.protocol_id_counter = 6
    ∧ ((_process_trials_to_insert cfg0 ["A.json", "B.json"] [false, true]
        (initRunState wmEmpty env5)).1).envSaves = 1 := by
  decide

/-- Claim C1: for a candidate without a real NCT identifier but with a
usable local-protocol-identifier string, `process_trials` calls
`get_trial_by_local_protocol_ids` — but that lookup returns `None` for
EVERY input and every registry backend (its filter construction calls
`.join` on a Python list, raising AttributeError, which its
`except Exception` handler turns into `None`), so the found/update
branch at trial.py:320-321 is unreachable and such a candidate is always
classified as an insert. -/
theorem claim_C1 (lookupNct lookupLocal : String → LookupOutcome) (row : TrialStatusRow)
    (ids : List String) (hna : row.nct_id = "NA" ∨ row.nct_id = "")
    (h1 : row.local_protocol_ids ≠ "") (h2 : row.local_protocol_ids ≠ "NA") :
    get_trial_by_local_protocol_ids lookupLocal ids = none
    ∧ classifyTrial lookupNct lookupLocal row = PlanEntry.toInsert (getTrialFileName row)
    ∧ (planOf lookupNct lookupLocal [row]).to_insert = [getTrialFileName row]
    ∧ (planOf lookupNct lookupLocal [row]).to_update = [] := by
  have hlook : ∀ l, get_trial_by_local_protocol_ids lookupLocal l = none := fun _ => rfl
  have hnotreal : ¬ (row.nct_id ≠ "" ∧ row.nct_id ≠ "NA") := by
    rcases hna with h | h <;> simp [h]
  have hcls : classifyTrial lookupNct lookupLocal row
      = PlanEntry.toInsert (getTrialFileName row) := by
    unfold classifyTrial
    rw [if_neg hnotreal, if_pos ⟨h1, h2⟩, hlook]
  refine ⟨hlook ids, hcls, ?_, ?_⟩
  · simp [planOf, planAdd, hcls, emptyPlan]
  · simp [planOf, planAdd, hcls, emptyPlan]

/-- Witness for claim C1: the concrete feed row (nct_id "NA",
local_protocol_ids "P1") is classified insert even against a registry
backend that would answer every query with the matching document
`tLocal`. -/
theorem claim_C1_witness :
    (rowC1.nct_id = "NA" ∨ rowC1.nct_id = "")
    ∧ rowC1.local_protocol_ids ≠ ""
    ∧ rowC1.local_protocol_ids ≠ "NA"
    ∧ get_trial_by_local_protocol_ids (fun _ => LookupOutcome.items [tLocal]) ["P1"] = none
    ∧ classifyTrial emptyItems (fun _ => LookupOutcome.items [tLocal]) rowC1
        = PlanEntry.toInsert (getTrialFileName rowC1) := by
  have h := claim_C1 emptyItems (fun _ => LookupOutcome.items [tLocal]) rowC1 ["P1"]
    (Or.inl rfl) (by decide) (by decide)
  exact ⟨Or.inl rfl, by decide, by decide, h.1, h.2.1⟩

/-- Claim C3 (amended): for every successful insert, the watermark
entry is recorded under `file_name.split('.')[0]`, i.e. the trial key
truncated at its first dot (equal to the trial key exactly when the key
contains no dot, since the file is always named trial key + ".json"),
and the recorded date is the run date (`datetime.now()`), not the feed
record's `entry_last_updated_date`. -/
theorem claim_C3 (cfg : World) (s : RunState) (posts : List Bool) (key : String)
    (d : TrialData) (hkey : key.data.all (fun c => c != '.') = true)
    (hfile : cfg.fileOk (key ++ ".json") = some d)
    (hok : posts.headD false = true) :
    ((insertStep cfg (key ++ ".json") s posts).1).watermark key = some cfg.todayIso
    ∧ (∀ row : TrialStatusRow, getTrialFileName row = trialKeyOfRow row ++ ".json") := by
  constructor
  · simp only [insertStep, hfile]
    rw [if_pos hok]
    show dictSet s.watermark (pySplitHead '.' (key ++ ".json")) cfg.todayIso key
      = some cfg.todayIso
    rw [pySplitHead_dot_json key hkey]
    exact dictSet_same s.watermark key cfg.todayIso
  · intro row
    unfold getTrialFileName trialKeyOfRow
    by_cases h : row.nct_id = "NA"
    · rw [if_neg (by simp [h]), if_pos h]
    · rw [if_pos h, if_neg h]

/-- Witness for claim C3 (amended): a concrete dot-free key `NCT001`
whose successful insert records watermark["NCT001"] = the run date
2025-01-15. -/
theorem claim_C3_witness :
    "NCT001".data.all (fun c => c != '.') = true
    ∧ cfg0.fileOk ("NCT001" ++ ".json") = some ⟨none, none⟩
    ∧ [true].headD false = true
    ∧ ((insertStep cfg0 ("NCT001" ++ ".json") (initRunState wmEmpty env5) [true]).1).watermark
        "NCT001" = some "2025-01-15" := by
  have h := claim_C3 cfg0 (initRunState wmEmpty env5) [true] "NCT001" ⟨none, none⟩
    (by decide) rfl rfl
  exact ⟨by decide, rfl, rfl, h.1⟩

/-- Counterexample to claim C3 as stated: the candidate keyed by the
local protocol identifier "AB.C" (which was used for the watermark
filter, and whose feed `entry_last_updated_date` is "2024-03-01") is
inserted successfully on 2025-01-15, yet the watermark gains no entry
under "AB.C" — the entry lands under the truncated key "AB" — and the
recorded date is the run date 2025-01-15, not 2024-03-01. -/
theorem claim_C3_counterexample :
    (process_trials cfg0 [rowLocalDot] wmEmpty env5 [true] [] []).watermark "AB.C" = none
    ∧ (process_trials cfg0 [rowLocalDot] wmEmpty env5 [true] [] []).watermark "AB"
        = some "2025-01-15"
    ∧ (process_trials cfg0 [rowLocalDot] wmEmpty env5 [true] [] []).anySuccess = true
    ∧ trialKeyOfRow rowLocalDot = "AB.C"
    ∧ rowLocalDot.entry_last_updated_date = "2024-03-01" := by
  decide

/-- Claim C4: evaluation at the failing input. A run whose single
candidate `NCT001` is classified insert and whose remote create succeeds
reports success and records the watermark — but the run relocates no
file whatsoever: `process_trials` creates the processed-files archive
directory (trial.py:273-275) and then never moves anything into it, so
the processed source file stays in the active trial directory. -/
theorem claim_C4 :
    (process_trials cfg0 [rowNct] wmEmpty env5 [true] [] []).anySuccess = true
    ∧ (process_trials cfg0 [rowNct] wmEmpty env5 [true] [] []).watermark "NCT001"
        = some "2025-01-15"
    ∧ (process_trials cfg0 [rowNct] wmEmpty env5 [true] [] []).createdProcessedDir = true
    ∧ (process_trials cfg0 [rowNct] wmEmpty env5 [true] [] []).movedFiles = []
    ∧ (planOf cfg0.lookupNct cfg0.lookupLocal
        (trials_to_process [rowNct] wmEmpty)).to_insert = ["NCT001.json"] := by
  decide

/-- The run-completion tail triggers the recompute signal exactly once
iff the run had a success, and always persists the watermark. -/
lemma runCompletion_spec (s3 : RunState) (h : s3.matchengineRuns = 0) :
    (runCompletion s3).matchengineRuns = (if (runCompletion s3).anySuccess then 1 else 0)
    ∧ (runCompletion s3).watermarkSaved = true := by
  unfold runCompletion
  cases hb : s3.anySuccess <;> simp [hb, h]

/-- The main path of a run starts with zero recompute invocations and
the executors never add any, so the completion tail decides the count. -/
lemma process_trials_main_completion (cfg : World) (feed : List TrialStatusRow)
    (wm0 : String → Option String) (env0 : EnvVars) (posts puts closes : List Bool) :
    (process_trials_main cfg feed wm0 env0 posts puts closes).matchengineRuns
      = (if (process_trials_main cfg feed wm0 env0 posts puts closes).anySuccess then 1 else 0)
    ∧ (process_trials_main cfg feed wm0 env0 posts puts closes).watermarkSaved = true := by
  unfold process_trials_main
  apply runCompletion_spec
  rw [(close_fold_preserves _ _ _ _).1, (update_fold_preserves _ _ _ _).1,
    (insert_fold_preserves _ _ _ _).1]
  rfl

/-- Claim C5: on any run that passes the precondition guards, the
downstream recompute signal (`system.run_matchengine`) is invoked
exactly once when at least one insert, update or close succeeded and
zero times otherwise, and the full watermark mapping is persisted
unconditionally at the end of the run — including when every remote
call failed. -/
theorem claim_C5 (cfg : World) (feed : List TrialStatusRow) (wm0 : String → Option String)
    (env0 : EnvVars) (posts puts closes : List Bool)
    (h1 : cfg.trialDirExists = true) (h2 : cfg.csvExists = true) :
    (process_trials cfg feed wm0 env0 posts puts closes).matchengineRuns
      = (if (process_trials cfg feed wm0 env0 posts puts closes).anySuccess then 1 else 0)
    ∧ (process_trials cfg feed wm0 env0 posts puts closes).watermarkSaved = true := by
  have hg1 : (!cfg.trialDirExists) = false := by rw [h1]; rfl
  have hg2 : (!cfg.csvExists) = false := by rw [h2]; rfl
  unfold process_trials
  rw [hg1, hg2]
  simp only [Bool.false_eq_true, if_false]
  exact process_trials_main_completion cfg feed wm0 env0 posts puts closes

/-- Witness for claim C5: a run in which every remote call fails (all
three candidates present, all posts fail) triggers no recompute and
still persists the watermark. -/
theorem claim_C5_witness :
    cfg0.trialDirExists = true ∧ cfg0.csvExists = true
    ∧ (process_trials cfg0 [rowNct] wmEmpty env5 [false] [] []).anySuccess = false
    ∧ (process_trials cfg0 [rowNct] wmEmpty env5 [false] [] []).matchengineRuns = 0
    ∧ (process_trials cfg0 [rowNct] wmEmpty env5 [false] [] []).watermarkSaved = true := by
  have h := claim_C5 cfg0 [rowNct] wmEmpty env5 [false] [] [] rfl rfl
  refine ⟨rfl, rfl, by decide, ?_, h.2⟩
  rw [h.1]
  decide

/-- Claim C6: a feed record is a candidate iff its
`entry_last_updated_date` is strictly greater (Python string order) than
the watermark entry for its trial key; a record whose date exactly
equals the watermark entry is excluded; and a trial key absent from the
watermark defaults to the epoch "1900-01-01", so any record with a real
(later) date is processed first time. -/
theorem claim_C6 (feed : List TrialStatusRow) (wm : String → Option String)
    (row : TrialStatusRow) :
    (row ∈ trials_to_process feed wm ↔
      row ∈ feed ∧ pyStrLt (wmGet wm (trialKeyOfRow row)) row.entry_last_updated_date = true)
    ∧ (wmGet wm (trialKeyOfRow row) = row.entry_last_updated_date →
        row ∉ trials_to_process feed wm)
    ∧ (wm (trialKeyOfRow row) = none →
        pyStrLt "1900-01-01" row.entry_last_updated_date = true →
        row ∈ feed → row ∈ trials_to_process feed wm) := by
  have hmem : row ∈ trials_to_process feed wm ↔
      row ∈ feed ∧ pyStrLt (wmGet wm (trialKeyOfRow row)) row.entry_last_updated_date = true := by
    unfold trials_to_process
    exact List.mem_filter
  refine ⟨hmem, ?_, ?_⟩
  · intro heq hmemf
    have h := (hmem.mp hmemf).2
    rw [heq, pyStrLt_irrefl] at h
    exact Bool.false_ne_true h
  · intro hnone hlt hfeed
    apply hmem.mpr
    refine ⟨hfeed, ?_⟩
    unfold wmGet
    rw [hnone]
    exact hlt

/-- Witness for claim C6: the first-time row `NCT001` (absent from the
watermark, dated 2024-03-01) is a candidate; and once the watermark
holds exactly that date, the same row is excluded. -/
theorem claim_C6_witness :
    wmEmpty (trialKeyOfRow rowNct) = none
    ∧ pyStrLt "1900-01-01" rowNct.entry_last_updated_date = true
    ∧ rowNct ∈ trials_to_process [rowNct] wmEmpty
    ∧ wmGet (dictSet wmEmpty "NCT001" "2024-03-01") (trialKeyOfRow rowNct)
        = rowNct.entry_last_updated_date
    ∧ rowNct ∉ trials_to_process [rowNct] (dictSet wmEmpty "NCT001" "2024-03-01") := by
  refine ⟨rfl, by decide, ?_, by decide, ?_⟩
  · exact (claim_C6 [rowNct] wmEmpty rowNct).2.2 rfl (by decide) (by simp)
  · exact (claim_C6 [rowNct] (dictSet wmEmpty "NCT001" "2024-03-01") rowNct).2.1 (by decide)

/-- Claim C8: for a candidate with a real NCT identifier that is found
in the remote registry: when the feed says closed and the remote is not
yet closed, the candidate lands in the close plan and in neither the
update nor the insert plan; when the remote is already closed, the
candidate is excluded from all three plans (log-only skip), even though
the feed still marks it closed. -/
theorem claim_C8 (ln ll : String → LookupOutcome) (row : TrialStatusRow) (t : RemoteTrial)
    (h1 : row.nct_id ≠ "") (h2 : row.nct_id ≠ "NA")
    (hfound : get_trial_by_nct_id ln row.nct_id = some t)
    (hclosed : row.status = "closed") :
    (t.status ≠ "closed" →
      classifyTrial ln ll row = PlanEntry.toClose t._id t.nct_id t
      ∧ (planOf ln ll [row]).to_close = [(t._id, t.nct_id, t)]
      ∧ (planOf ln ll [row]).to_update = []
      ∧ (planOf ln ll [row]).to_insert = [])
    ∧ (t.status = "closed" →
      classifyTrial ln ll row = PlanEntry.skipAlreadyClosed row.nct_id
      ∧ (planOf ln ll [row]).to_close = []
      ∧ (planOf ln ll [row]).to_update = []
      ∧ (planOf ln ll [row]).to_insert = []) := by
  constructor
  · intro hne
    have hcls : classifyTrial ln ll row = PlanEntry.toClose t._id t.nct_id t := by
      unfold classifyTrial
      rw [if_pos ⟨h1, h2⟩]
      simp only [hfound]
      rw [if_pos hclosed, if_pos hne]
    refine ⟨hcls, ?_, ?_, ?_⟩ <;> simp [planOf, List.foldl, hcls, planAdd, emptyPlan]
  · intro heq
    have hcls : classifyTrial ln ll row = PlanEntry.skipAlreadyClosed row.nct_id := by
      unfold classifyTrial
      rw [if_pos ⟨h1, h2⟩]
      simp only [hfound]
      rw [if_pos hclosed, if_neg (by simp [heq])]
    refine ⟨hcls, ?_, ?_, ?_⟩ <;> simp [planOf, List.foldl, hcls, planAdd, emptyPlan]

/-- Witness for claim C8: against a registry holding the open trial
`NCT9` and the already-closed trial `NCT8`, the feed row closing `NCT9`
produces exactly one close-plan entry and nothing else, while the feed
row closing `NCT8` produces an empty plan. -/
theorem claim_C8_witness :
    get_trial_by_nct_id (honestNctLookup [tOpen, tClosed]) "NCT9" = some tOpen
    ∧ (planOf (honestNctLookup [tOpen, tClosed]) emptyItems [rowClose9]).to_close
        = [("id7", "NCT9", tOpen)]
    ∧ (planOf (honestNctLookup [tOpen, tClosed]) emptyItems [rowClose9]).to_update = []
    ∧ (planOf (honestNctLookup [tOpen, tClosed]) emptyItems [rowClose9]).to_insert = []
    ∧ get_trial_by_nct_id (honestNctLookup [tOpen, tClosed]) "NCT8" = some tClosed
    ∧ (planOf (honestNctLookup [tOpen, tClosed]) emptyItems [rowClose8]).to_close = []
    ∧ (planOf (honestNctLookup [tOpen, tClosed]) emptyItems [rowClose8]).to_update = []
    ∧ (planOf (honestNctLookup [tOpen, tClosed]) emptyItems [rowClose8]).to_insert = [] := by
  have hA := claim_C8 (honestNctLookup [tOpen, tClosed]) emptyItems rowClose9 tOpen
    (by decide) (by decide) (by decide) rfl
  have hB := claim_C8 (honestNctLookup [tOpen, tClosed]) emptyItems rowClose8 tClosed
    (by decide) (by decide) (by decide) rfl
  have hA2 := hA.1 (by decide)
  have hB2 := hB.2 rfl
  exact ⟨by decide, hA2.2.1, hA2.2.2.1, hA2.2.2.2, by decide,
    hB2.2.1, hB2.2.2.1, hB2.2.2.2⟩

/-- Claim C9: the relocator retries the rename up to 3 times on
PermissionError with a sleep between attempts; two permission errors
followed by a successful third rename leave the file at the destination
with no error surfaced; three permission errors trigger the
copy-then-delete fallback, which when successful surfaces no error; and
when the fallback fails, the error propagates to the caller. -/
theorem claim_C9 (w₁ w₂ w₃ : MoveWorld)
    (h10 : w₁.renames 0 = FsResult.permError) (h11 : w₁.renames 1 = FsResult.permError)
    (h12 : w₁.renames 2 = FsResult.ok)
    (h20 : w₂.renames 0 = FsResult.permError) (h21 : w₂.renames 1 = FsResult.permError)
    (h22 : w₂.renames 2 = FsResult.permError) (h2c : w₂.copy = FsResult.ok)
    (h2r : w₂.remove = FsResult.ok)
    (h30 : w₃.renames 0 = FsResult.permError) (h31 : w₃.renames 1 = FsResult.permError)
    (h32 : w₃.renames 2 = FsResult.permError) (h3c : w₃.copy ≠ FsResult.ok) :
    _move_file_with_retry w₁ = (MoveOutcome.renamed 2, 2)
    ∧ fileAtDest (_move_file_with_retry w₁).1 = true
    ∧ errorSurfaced (_move_file_with_retry w₁).1 = false
    ∧ _move_file_with_retry w₂ = (MoveOutcome.copiedAndDeleted, 2)
    ∧ fileAtDest (_move_file_with_retry w₂).1 = true
    ∧ errorSurfaced (_move_file_with_retry w₂).1 = false
    ∧ _move_file_with_retry w₃ = (MoveOutcome.raisedPermError, 2)
    ∧ errorSurfaced (_move_file_with_retry w₃).1 = true := by
  have e1 : _move_file_with_retry w₁ = (MoveOutcome.renamed 2, 2) := by
    simp [_move_file_with_retry, moveGo, h10, h11, h12]
  have e2 : _move_file_with_retry w₂ = (MoveOutcome.copiedAndDeleted, 2) := by
    simp [_move_file_with_retry, moveGo, h20, h21, h22, h2c, h2r]
  have e3 : _move_file_with_retry w₃ = (MoveOutcome.raisedPermError, 2) := by
    cases hc : w₃.copy with
    | ok => exact absurd hc h3c
    | permError => simp [_move_file_with_retry, moveGo, h30, h31, h32, hc]
    | otherError => simp [_move_file_with_retry, moveGo, h30, h31, h32, hc]
  exact ⟨e1, by rw [e1]; rfl, by rw [e1]; rfl, e2, by rw [e2]; rfl, by rw [e2]; rfl,
    e3, by rw [e3]; rfl⟩

/-- Witness for claim C9: evaluation of the three concrete filesystem
behaviours. -/
theorem claim_C9_witness :
    _move_file_with_retry mwThird = (MoveOutcome.renamed 2, 2)
    ∧ _move_file_with_retry mwCopy = (MoveOutcome.copiedAndDeleted, 2)
    ∧ _move_file_with_retry mwCopyFail = (MoveOutcome.raisedPermError, 2) := by
  have h := claim_C9 mwThird mwCopy mwCopyFail (by decide) (by decide) (by decide)
    (by decide) (by decide) (by decide) (by decide) (by decide)
    (by decide) (by decide) (by decide) (by decide)
  exact ⟨h.1, h.2.2.2.1, h.2.2.2.2.2.2.1⟩

/-- Claim C10: when the NCT lookup fails for transport reasons (network
exception, HTTP error status or malformed body), `get_trial_by_nct_id`
returns `None` instead of raising, and the planner classifies the
candidate as insert — exactly as if the registry did not contain the
trial — even when the registry does contain a document with that NCT
identifier (an honest lookup would have found it), so a transient
failure can lead to a duplicate create. -/
theorem claim_C10 (reg : List RemoteTrial) (lf ll : String → LookupOutcome)
    (row : TrialStatusRow) (t : RemoteTrial)
    (h1 : row.nct_id ≠ "") (h2 : row.nct_id ≠ "NA")
    (hfail : lf row.nct_id = LookupOutcome.netError ∨ lf row.nct_id = LookupOutcome.httpError
      ∨ lf row.nct_id = LookupOutcome.badBody)
    (hmem : t ∈ reg) (hnct : t.nct_id = row.nct_id) :
    get_trial_by_nct_id lf row.nct_id = none
    ∧ classifyTrial lf ll row = PlanEntry.toInsert (getTrialFileName row)
    ∧ (planOf lf ll [row]).to_insert = [getTrialFileName row]
    ∧ get_trial_by_nct_id (honestNctLookup reg) row.nct_id ≠ none := by
  have hnone : get_trial_by_nct_id lf row.nct_id = none := by
    unfold get_trial_by_nct_id
    rcases hfail with h | h | h <;> rw [h]
  have hcls : classifyTrial lf ll row = PlanEntry.toInsert (getTrialFileName row) := by
    unfold classifyTrial
    rw [if_pos ⟨h1, h2⟩]
    simp only [hnone]
  refine ⟨hnone, hcls, ?_, ?_⟩
  · simp [planOf, List.foldl, hcls, planAdd, emptyPlan]
  · have hfilter : t ∈ reg.filter (fun u => u.nct_id = row.nct_id) := by
      simp [List.mem_filter, hmem, hnct]
    have hne : reg.filter (fun u => u.nct_id = row.nct_id) ≠ [] :=
      List.ne_nil_of_mem hfilter
    intro hcontra
    have hcontra2 : (reg.filter (fun u => u.nct_id = row.nct_id)).head? = none := hcontra
    rw [List.head?_eq_none_iff] at hcontra2
    exact hne hcontra2

/-- Witness for claim C10: the registry holds `NCT9` (as `tOpen`), the
transport fails with an HTTP error, and the active feed row for `NCT9`
is classified insert, while an honest lookup would have found the
document. -/
theorem claim_C10_witness :
    failNct rowActive9.nct_id = LookupOutcome.httpError
    ∧ tOpen ∈ [tOpen]
    ∧ tOpen.nct_id = rowActive9.nct_id
    ∧ get_trial_by_nct_id failNct "NCT9" = none
    ∧ classifyTrial failNct emptyItems rowActive9 = PlanEntry.toInsert "NCT9.json"
    ∧ get_trial_by_nct_id (honestNctLookup [tOpen]) "NCT9" ≠ none := by
  have h := claim_C10 [tOpen] failNct emptyItems rowActive9 tOpen
    (by decide) (by decide) (Or.inr (Or.inl rfl)) (by simp) rfl
  exact ⟨rfl, by simp, rfl, h.1, h.2.1, h.2.2.2⟩

end MatchminerAdmin
